import Mathlib

/-!
Shallow embedding of the evaluation core of the metapolymarket repository:
the Kelly stake calculator (`computeKellyPercentage`, server code), the
resolution/scoring path inside `getResolvedPredictions` and the backtest
aggregator `calculateBacktestStats` (historyService), and the sliding-window
rate limiter `hitRateLimit` (server code).

JavaScript numbers are modelled as exact rationals together with the three
non-finite values `NaN`, `Infinity` and `-Infinity` where the source tests
`Number.isFinite`; arithmetic that the source only ever performs on finite
values is carried out in `ℚ`.
-/

/-- Model of a JavaScript number: either a finite value (modelled exactly as a
rational) or one of the non-finite values `NaN`, `Infinity`, `-Infinity`. -/
inductive JsNum where
  | nan : JsNum
  | posInf : JsNum
  | negInf : JsNum
  | fin : ℚ → JsNum
deriving DecidableEq

/-- Embeds `Math.min` on finite values. -/
def jsMin (a b : ℚ) : ℚ := if a ≤ b then a else b

/-- Embeds `Math.max` on finite values. -/
def jsMax (a b : ℚ) : ℚ := if a ≤ b then b else a

/-- Embeds `Math.abs` on finite values. -/
def jsAbs (x : ℚ) : ℚ := if x < 0 then -x else x

/-- Embeds `clamp01` (server):
`const n = Number(x); if (!Number.isFinite(n)) return 0.5; return Math.min(1, Math.max(0, n));` -/
def clamp01 : JsNum → ℚ
  | .fin n => jsMin 1 (jsMax 0 n)
  | _ => 1/2

/-- Embeds JavaScript `Math.round` (round half towards positive infinity):
`Math.round(x) = ⌊x + 0.5⌋`. -/
def jsRound (x : ℚ) : ℤ := ⌊x + 1/2⌋

/-- Embeds `outcomes?.[0]` in `computeKellyPercentage`: the first outcome
label, or `undefined` (modelled as `none`) when absent. -/
def kellyOutcomeA (outcomes : List String) : Option String := outcomes.head?

/-- Embeds `outcomes?.[1] || 'Other'` in `computeKellyPercentage`: the second
outcome label, defaulting to `"Other"` when absent or falsy (empty string). -/
def kellyOutcomeB (outcomes : List String) : String :=
  match outcomes[1]? with
  | some s => if s = "" then "Other" else s
  | none => "Other"

/-- Embeds the guardrail test `Number.isFinite(conf) && conf < 4` on
`const conf = Number(confidence)` in `computeKellyPercentage`. -/
def confBelowFloor : JsNum → Bool
  | .fin c => decide (c < 4)
  | _ => false

/-- Embeds the normalisation of `prediction` in `computeKellyPercentage`:
`prediction === outcomeA || prediction === outcomeB ? prediction : (aiA >= 0.5 ? outcomeA : outcomeB)`.
The result is an `Option String` because `outcomeA` itself may be `undefined`. -/
def kellyPred (aiProbabilityForOutcomeA : JsNum) (prediction : String)
    (outcomes : List String) : Option String :=
  if kellyOutcomeA outcomes = some prediction ∨ prediction = kellyOutcomeB outcomes then
    some prediction
  else if 1/2 ≤ clamp01 aiProbabilityForOutcomeA then kellyOutcomeA outcomes
  else some (kellyOutcomeB outcomes)

/-- Embeds `predictedProb = pred === outcomeA ? aiA : 1 - aiA` in
`computeKellyPercentage`. -/
def kellyPredictedProb (aiProbabilityForOutcomeA : JsNum) (prediction : String)
    (outcomes : List String) : ℚ :=
  if kellyPred aiProbabilityForOutcomeA prediction outcomes = kellyOutcomeA outcomes then
    clamp01 aiProbabilityForOutcomeA
  else 1 - clamp01 aiProbabilityForOutcomeA

/-- Embeds `marketSideProb = pred === outcomeA ? mpA : 1 - mpA` in
`computeKellyPercentage`. -/
def kellyMarketSideProb (aiProbabilityForOutcomeA : JsNum) (prediction : String)
    (outcomes : List String) (marketProbOutcomeA : JsNum) : ℚ :=
  if kellyPred aiProbabilityForOutcomeA prediction outcomes = kellyOutcomeA outcomes then
    clamp01 marketProbOutcomeA
  else 1 - clamp01 marketProbOutcomeA

/-- Embeds `computeKellyPercentage` (server).  Guardrails: confidence floor,
extreme price band, minimum edge; then binary Kelly `f = (b·p - q)/b` with
`b = 1/marketSideProb - 1`, clamped to `[0,1]` and returned as a percentage
rounded to two decimals (`Math.round(f * 10000) / 100`).  The source's
`Number.isFinite` checks on `b` and `f` cannot fire in the exact rational
model (past the extreme-band guardrail `marketSideProb ∈ (0.05, 0.95)`, so
`b` and `f` are finite), leaving the `b ≤ 0` test. -/
def computeKellyPercentage (aiProbabilityForOutcomeA : JsNum) (prediction : String)
    (outcomes : List String) (marketProbOutcomeA : JsNum) (confidence : JsNum) : ℚ :=
  let predictedProb := kellyPredictedProb aiProbabilityForOutcomeA prediction outcomes
  let marketSideProb :=
    kellyMarketSideProb aiProbabilityForOutcomeA prediction outcomes marketProbOutcomeA
  if confBelowFloor confidence then 0
  else if marketSideProb ≤ 5/100 ∨ 95/100 ≤ marketSideProb then 0
  else if jsAbs (predictedProb - marketSideProb) < 2/100 then 0
  else
    let b := 1 / marketSideProb - 1
    if b ≤ 0 then 0
    else
      let p := predictedProb
      let q := 1 - p
      let f := (b * p - q) / b
      let f2 := jsMax 0 (jsMin 1 f)
      (jsRound (f2 * 10000) : ℚ) / 100

/-!
Resolution/scoring path: the per-record body of `getResolvedPredictions`
(historyService).  `PredictionRecord` keeps exactly the stored fields that the
scoring computation reads; pass-through presentation fields (title, slug,
reasoning, …) are omitted.  The stored numeric fields `aiProb` and
`marketProb` are modelled as finite rationals; `kellyPercentage` keeps the
full JavaScript-number model because the source explicitly tests
`typeof === 'number' && Number.isFinite` on it.
-/

structure PredictionRecord where
  date : String
  aiPrediction : String
  aiProb : ℚ
  marketProb : ℚ
  kellyPercentage : JsNum
  outcomes : List String

/-- Embeds `outcomes = p.outcomes && p.outcomes.length >= 2 ? p.outcomes : ['Yes', 'No']`. -/
def resOutcomes (p : PredictionRecord) : List String :=
  if 2 ≤ p.outcomes.length then p.outcomes else ["Yes", "No"]

/-- The `outcomes[0]` used throughout the scoring body (always present since
`resOutcomes` has length at least 2). -/
def resOutcome0 (p : PredictionRecord) : String := (resOutcomes p).getD 0 ""

/-- Embeds `predictedOutcome = p.aiPrediction || outcomes[0]` (the falsy string
is the empty string). -/
def resPredictedOutcome (p : PredictionRecord) : String :=
  if p.aiPrediction = "" then resOutcome0 p else p.aiPrediction

/-- Embeds `isPredFirst = predictedOutcome === outcomes[0]`. -/
def resIsPredFirst (p : PredictionRecord) : Bool :=
  resPredictedOutcome p = resOutcome0 p

/-- Embeds `kellyPctRaw = typeof p.kellyPercentage === 'number' && Number.isFinite(p.kellyPercentage) ? p.kellyPercentage : 0`
followed by `kellyPct = Math.max(0, Math.min(100, kellyPctRaw))`. -/
def resKellyPct (p : PredictionRecord) : ℚ :=
  let kellyPctRaw := match p.kellyPercentage with | .fin q => q | _ => 0
  jsMax 0 (jsMin 100 kellyPctRaw)

/-- Embeds `entryPrice = isPredFirst ? p.marketProb : (1 - p.marketProb)`. -/
def resEntryPrice (p : PredictionRecord) : ℚ :=
  if resIsPredFirst p then p.marketProb else 1 - p.marketProb

/-- Embeds `safeEntryPrice = Math.max(0.01, Math.min(0.99, entryPrice))`. -/
def resSafeEntryPrice (p : PredictionRecord) : ℚ :=
  jsMax (1/100) (jsMin (99/100) (resEntryPrice p))

/-- Embeds `predictedProb = isPredFirst ? p.aiProb : 1 - p.aiProb`. -/
def resPredictedProb (p : PredictionRecord) : ℚ :=
  if resIsPredFirst p then p.aiProb else 1 - p.aiProb

/-- Embeds `String.prototype.toLowerCase` (ASCII case folding). -/
def jsToLower (s : String) : String := ⟨s.data.map Char.toLower⟩

/-- Embeds `String.prototype.trim`: strip leading and trailing whitespace. -/
def jsTrim (s : String) : String :=
  ⟨((s.data.dropWhile Char.isWhitespace).reverse.dropWhile Char.isWhitespace).reverse⟩

/-- Embeds the string normalisation `norm = (s) => s.trim().toLowerCase()`. -/
def jsNorm (s : String) : String := jsToLower (jsTrim s)

/-- Embeds the `actualProb` computation: the "other" sentinel is correct iff
the winner is not `outcomes[0]`; otherwise correctness is equality of the
normalised winner and the normalised predicted outcome. -/
def resActualProb (p : PredictionRecord) (resolvedOutcomeRaw : String) : ℚ :=
  if jsNorm (resPredictedOutcome p) = "other" then
    if jsNorm resolvedOutcomeRaw ≠ jsNorm (resOutcome0 p) then 1 else 0
  else
    if jsNorm resolvedOutcomeRaw = jsNorm (resPredictedOutcome p) then 1 else 0

/-- Embeds `brierError = Math.pow(predictedProb - actualProb, 2)`. -/
def resBrierError (p : PredictionRecord) (resolvedOutcomeRaw : String) : ℚ :=
  (resPredictedProb p - resActualProb p resolvedOutcomeRaw) ^ 2

/-- Embeds `wasCorrect = actualProb === 1`. -/
def resWasCorrect (p : PredictionRecord) (resolvedOutcomeRaw : String) : Bool :=
  decide (resActualProb p resolvedOutcomeRaw = 1)

/-- Embeds the `kellyReturn` computation: `kellyFrac = kellyPct / 100`; if
correct, `kellyFrac * (1 - safeEntryPrice) / safeEntryPrice`, else
`-kellyFrac`; finally `Math.max(-0.99, kellyReturn)`.  The source's
`Number.isFinite(kellyReturn)` coercion to 0 cannot fire in the exact model:
`safeEntryPrice ∈ [0.01, 0.99]`, so the quotient is finite. -/
def resKellyReturn (p : PredictionRecord) (resolvedOutcomeRaw : String) : ℚ :=
  let kellyFrac := resKellyPct p / 100
  let kellyReturn :=
    if resWasCorrect p resolvedOutcomeRaw then
      kellyFrac * ((1 - resSafeEntryPrice p) / resSafeEntryPrice p)
    else -kellyFrac
  jsMax (-99/100) kellyReturn

/-!
Backtest aggregator: `calculateBacktestStats` (historyService).
`ScoredPrediction` keeps the fields of a resolved prediction that the
aggregator reads (`date`, `wasCorrect`, `brierError`, `kellyReturn`).
The source's fallback for a missing `date` is the current day; the wall clock
is passed explicitly as the `today` argument.
-/

structure ScoredPrediction where
  date : String
  wasCorrect : Bool
  brierError : ℚ
  kellyReturn : ℚ

structure BacktestStats where
  total : ℕ
  accuracy : ℚ
  brierScore : ℚ
  avgBrier : ℚ
  kellyROI : ℚ
  winRate : ℚ
  overTime : List (String × ℕ)
deriving DecidableEq

/-- Days from 1970-01-01 of the civil date `y-m-d` (proleptic Gregorian),
the standard era/year-of-era computation. -/
def daysFromCivil (y m d : ℕ) : ℤ :=
  let yShift := if m ≤ 2 then y - 1 else y
  let era := yShift / 400
  let yoe := yShift % 400
  let mp := (m + 9) % 12
  let doy := (153 * mp + 2) / 5 + d - 1
  let doe := yoe * 365 + yoe / 4 - yoe / 100 + doy
  (era * 146097 + doe : ℤ) - 719468

/-- Splits a character list on a separator character. -/
def splitOnChar (c : Char) (l : List Char) : List (List Char) :=
  l.foldr (fun ch acc =>
    if ch = c then [] :: acc
    else match acc with
      | [] => [[ch]]
      | g :: gs => (ch :: g) :: gs) [[]]

/-- Parses a non-empty all-digit character list as a natural number. -/
def digitsToNat? (l : List Char) : Option ℕ :=
  if l ≠ [] ∧ l.all Char.isDigit then
    some (l.foldl (fun n c => 10 * n + (c.toNat - 48)) 0)
  else none

/-- Embeds `new Date(s).getTime()` for ISO `YYYY-MM-DD` date strings (parsed
as UTC midnight, milliseconds since the epoch).  Strings outside that shape
are outside the model and mapped to 0. -/
def dateGetTime (s : String) : ℤ :=
  match splitOnChar '-' s.data with
  | [ys, ms, ds] =>
    match digitsToNat? ys, digitsToNat? ms, digitsToNat? ds with
    | some y, some m, some d => daysFromCivil y m d * 86400000
    | _, _, _ => 0
  | _ => 0

/-- Inserts an element into a list sorted by `le`, before the first strictly
greater element (so that insertion keeps the original order of ties). -/
def jsInsert (le : α → α → Bool) (a : α) : List α → List α
  | [] => [a]
  | b :: bs => if le b a && !(le a b) then b :: jsInsert le a bs else a :: b :: bs

/-- Models JavaScript `Array.prototype.sort` with a consistent comparator:
a stable ascending sort with respect to `le` (stable insertion sort). -/
def jsSort (le : α → α → Bool) (l : List α) : List α := l.foldr (jsInsert le) []

/-- One step of the `overTime` accumulation
`acc.set(date, (acc.get(date) || 0) + 1)` on an insertion-ordered map. -/
def bumpDate : List (String × ℕ) → String → List (String × ℕ)
  | [], d => [(d, 1)]
  | (k, v) :: rest, d => if k = d then (k, v + 1) :: rest else (k, v) :: bumpDate rest d

/-- Embeds `calculateBacktestStats` (historyService): accuracy, summed and
averaged Brier error, compounded Kelly ROI over the date-sorted list (stable
sort by `new Date(date).getTime()`, as JavaScript `Array.prototype.sort`),
win rate, and the per-date `overTime` series sorted by date string
(`localeCompare`, modelled as code-point order). -/
def calculateBacktestStats (today : String) (resolved : List ScoredPrediction) :
    BacktestStats :=
  if resolved.length = 0 then
    { total := 0, accuracy := 0, brierScore := 0, avgBrier := 0, kellyROI := 0,
      winRate := 0, overTime := [] }
  else
    let total : ℕ := resolved.length
    let correct : ℕ := (resolved.filter (fun p => p.wasCorrect)).length
    let accuracy : ℚ := (correct : ℚ) / (total : ℚ) * 100
    let brierScore : ℚ := resolved.foldl (fun sum p => sum + p.brierError) 0
    let avgBrier : ℚ := brierScore / (total : ℚ)
    let sortedResolved :=
      jsSort (fun a b => decide (dateGetTime a.date ≤ dateGetTime b.date)) resolved
    let bankrollMultiplier : ℚ :=
      sortedResolved.foldl (fun m p => m * (1 + jsMax (-99/100) p.kellyReturn)) 1
    let kellyROI := bankrollMultiplier - 1
    let winRate : ℚ :=
      ((resolved.filter (fun p => decide (0 < p.kellyReturn))).length : ℚ) / (total : ℚ) * 100
    let overTime :=
      jsSort (fun a b => decide (a.1 ≤ b.1))
        (resolved.foldl (fun acc p => bumpDate acc (if p.date = "" then today else p.date)) [])
    { total := total, accuracy := accuracy, brierScore := brierScore, avgBrier := avgBrier,
      kellyROI := kellyROI, winRate := winRate, overTime := overTime }

/-!
Sliding-window rate limiter `hitRateLimit` (server code): per-IP buckets of
call timestamps; each call filters the caller's bucket down to the trailing
window, appends the current timestamp, stores the result, and rejects when
the stored bucket exceeds the limit.
-/

def RATE_LIMIT_WINDOW_MS : ℤ := 60 * 1000

def RATE_LIMIT_MAX : ℕ := 30

/-- Embeds `rateBuckets.set(ip, v)` on an insertion-ordered map. -/
def mapSet : List (String × List ℤ) → String → List ℤ → List (String × List ℤ)
  | [], k, v => [(k, v)]
  | (k', v') :: rest, k, v =>
    if k' = k then (k, v) :: rest else (k', v') :: mapSet rest k v

/-- Embeds `hitRateLimit` (server): `bucket = rateBuckets.get(ip) || []`;
`recent = bucket.filter((t) => now - t < RATE_LIMIT_WINDOW_MS)`;
`recent.push(now)`; `rateBuckets.set(ip, recent)`; `return recent.length > limit`.
Returns the rejection flag together with the updated bucket map. -/
def hitRateLimit (rateBuckets : List (String × List ℤ)) (ip : String) (now : ℤ)
    (limit : ℕ) : Bool × List (String × List ℤ) :=
  let bucket := (rateBuckets.lookup ip).getD []
  let recent := bucket.filter (fun t => decide (now - t < RATE_LIMIT_WINDOW_MS))
  let recent2 := recent ++ [now]
  (decide (limit < recent2.length), mapSet rateBuckets ip recent2)

/-- Folds `hitRateLimit` over a sequence of call timestamps from one caller,
returning the rejection flag of each call. -/
def rlSimulate (ip : String) (limit : ℕ) :
    List (String × List ℤ) → List ℤ → List Bool
  | _, [] => []
  | buckets, t :: ts =>
    let r := hitRateLimit buckets ip t limit
    r.1 :: rlSimulate ip limit r.2 ts

/-!
Concrete fixtures used by the claim instances below.
-/

/-- The end-to-end scenario record: market `["Yes","No"]`, model probability
of "Yes" 0.85, market price of "Yes" 0.70, stored Kelly stake 50%. -/
def scenarioRecord : PredictionRecord :=
  { date := "2024-01-01", aiPrediction := "Yes", aiProb := 17/20, marketProb := 7/10,
    kellyPercentage := .fin 50, outcomes := ["Yes", "No"] }

/-- A record staking the full bankroll (stored Kelly stake 100%). -/
def maxStakeRecord : PredictionRecord :=
  { date := "2024-01-01", aiPrediction := "Yes", aiProb := 4/5, marketProb := 1/2,
    kellyPercentage := .fin 100, outcomes := ["Yes", "No"] }

/-- A record whose stored prediction label matches neither outcome while the
model's probability favours the first outcome. -/
def mismatchRecord : PredictionRecord :=
  { date := "2024-01-01", aiPrediction := "Maybe", aiProb := 9/10, marketProb := 1/2,
    kellyPercentage := .fin 10, outcomes := ["Yes", "No"] }

/-- A record with an empty stored prediction label. -/
def emptyPredRecord : PredictionRecord :=
  { date := "2024-01-01", aiPrediction := "", aiProb := 3/10, marketProb := 1/2,
    kellyPercentage := .fin 10, outcomes := ["Yes", "No"] }

/-- The three-item compounding fixture, deliberately out of date order:
returns +0.2 on 2024-01-03, +0.5 on 2024-01-01, -0.5 on 2024-01-02. -/
def roiFixture : List ScoredPrediction :=
  [ { date := "2024-01-03", wasCorrect := true, brierError := 0, kellyReturn := 1/5 },
    { date := "2024-01-01", wasCorrect := true, brierError := 0, kellyReturn := 1/2 },
    { date := "2024-01-02", wasCorrect := false, brierError := 0, kellyReturn := -1/2 } ]

/-!
Helper lemmas.
-/

theorem jsMin_eq_min (a b : ℚ) : jsMin a b = min a b := (min_def a b).symm

theorem jsMax_eq_max (a b : ℚ) : jsMax a b = max a b := (max_def a b).symm

theorem jsAbs_eq_abs (x : ℚ) : jsAbs x = |x| := by
  unfold jsAbs
  rcases lt_or_le x 0 with h | h
  · rw [if_pos h, abs_of_neg h]
  · rw [if_neg (not_lt.mpr h), abs_of_nonneg h]

theorem clamp01_mem (x : JsNum) : 0 ≤ clamp01 x ∧ clamp01 x ≤ 1 := by
  cases x with
  | fin n =>
    simp only [clamp01, jsMin_eq_min, jsMax_eq_max]
    exact ⟨le_min zero_le_one (le_max_left 0 n), min_le_left 1 _⟩
  | nan => norm_num [clamp01]
  | posInf => norm_num [clamp01]
  | negInf => norm_num [clamp01]

theorem clamp01_half_le (x : ℚ) : 1/2 ≤ clamp01 (.fin x) ↔ 1/2 ≤ x := by
  simp only [clamp01, jsMin_eq_min, jsMax_eq_max, le_min_iff, le_max_iff]
  norm_num

theorem jsRound_bounds {x : ℚ} (h0 : 0 ≤ x) (h1 : x ≤ 10000) :
    0 ≤ jsRound x ∧ jsRound x ≤ 10000 := by
  unfold jsRound
  refine ⟨Int.le_floor.mpr (by push_cast; linarith), ?_⟩
  have h2 : (⌊x + 1/2⌋ : ℤ) < 10001 := by
    rw [Int.floor_lt]
    push_cast
    linarith
  omega

theorem kelly_round_clamp_bounds (f : ℚ) :
    0 ≤ (jsRound (jsMax 0 (jsMin 1 f) * 10000) : ℚ) / 100 ∧
    (jsRound (jsMax 0 (jsMin 1 f) * 10000) : ℚ) / 100 ≤ 100 := by
  have h0 : 0 ≤ jsMax 0 (jsMin 1 f) := by
    rw [jsMax_eq_max]
    exact le_max_left 0 _
  have h1 : jsMax 0 (jsMin 1 f) ≤ 1 := by
    rw [jsMax_eq_max, jsMin_eq_min]
    exact max_le zero_le_one (min_le_left 1 f)
  have hb := jsRound_bounds (x := jsMax 0 (jsMin 1 f) * 10000)
    (by nlinarith) (by nlinarith)
  constructor
  · have : (0:ℚ) ≤ (jsRound (jsMax 0 (jsMin 1 f) * 10000) : ℚ) := by
      exact_mod_cast hb.1
    linarith
  · rw [div_le_iff₀ (by norm_num : (0:ℚ) < 100)]
    have : ((jsRound (jsMax 0 (jsMin 1 f) * 10000) : ℤ) : ℚ) ≤ 10000 := by
      exact_mod_cast hb.2
    linarith

theorem resKellyPct_mem (p : PredictionRecord) :
    0 ≤ resKellyPct p ∧ resKellyPct p ≤ 100 := by
  unfold resKellyPct
  rw [jsMax_eq_max, jsMin_eq_min]
  exact ⟨le_max_left 0 _, max_le (by norm_num) (min_le_left 100 _)⟩

theorem resSafeEntryPrice_mem (p : PredictionRecord) :
    1/100 ≤ resSafeEntryPrice p ∧ resSafeEntryPrice p ≤ 99/100 := by
  unfold resSafeEntryPrice
  rw [jsMax_eq_max, jsMin_eq_min]
  exact ⟨le_max_left _ _, max_le (by norm_num) (min_le_left _ _)⟩

theorem mapSet_lookup (m : List (String × List ℤ)) (k : String) (v : List ℤ) :
    (mapSet m k v).lookup k = some v := by
  induction m with
  | nil => simp [mapSet, List.lookup]
  | cons hd tl ih =>
    obtain ⟨k', v'⟩ := hd
    by_cases hk : k' = k
    · subst hk
      simp [mapSet, List.lookup]
    · simp only [mapSet, if_neg hk, List.lookup]
      rw [show (k == k') = false from beq_eq_false_iff_ne.mpr (Ne.symm hk)]
      exact ih

/-!
Claim theorems.
-/

/-- Claim C1 counterexample: on the valid end-to-end input (model probability
0.85, market price 0.70, prediction "Yes", confidence 8) the stake calculator
returns 50 — a percentage of bankroll — which lies outside the closed interval
[0,1] the claim asserts for the return value. -/
theorem kelly_stake_exceeds_unit_interval :
    computeKellyPercentage (.fin (17/20)) "Yes" ["Yes", "No"] (.fin (7/10)) (.fin 8) = 50 ∧
    ¬ ((50 : ℚ) ≤ 1) := by
  constructor
  · norm_num [computeKellyPercentage, kellyPredictedProb, kellyMarketSideProb, kellyPred,
      kellyOutcomeA, kellyOutcomeB, clamp01, jsMin, jsMax, jsAbs, jsRound, confBelowFloor]
  · norm_num

/-- Claim C1 (amended): for every input, `computeKellyPercentage` returns a
stake percentage in the closed interval [0,100] (equivalently, the stake
fraction `result / 100` lies in [0,1]). -/
theorem kelly_stake_percent_bounds (aiP : JsNum) (pred : String) (outs : List String)
    (mP conf : JsNum) :
    0 ≤ computeKellyPercentage aiP pred outs mP conf ∧
    computeKellyPercentage aiP pred outs mP conf ≤ 100 := by
  simp only [computeKellyPercentage]
  split_ifs with h1 h2 h3 h4
  · norm_num
  · norm_num
  · norm_num
  · norm_num
  · exact kelly_round_clamp_bounds _

/-- Claim C2 counterexample: on the end-to-end scenario input the stake
calculator returns 50 (a 50% stake), not approximately 0.65 / 65%, and the
realized return after a "Yes" settlement is 3/14 ≈ 0.214, not approximately
0.279: the spec's Kelly arithmetic `(0.4286·0.85 − 0.15)/0.4286` evaluates to
0.5, not 0.65. -/
theorem kelly_scenario_stake_not_065 :
    computeKellyPercentage (.fin (17/20)) "Yes" ["Yes", "No"] (.fin (7/10)) (.fin 8) = 50 ∧
    |(50 : ℚ)/100 - 65/100| > 1/10 ∧
    resKellyReturn scenarioRecord "Yes" = 3/14 ∧
    |(3 : ℚ)/14 - 279/1000| > 1/20 := by
  refine ⟨?_, by rw [abs_sub_comm]; norm_num [abs_of_nonneg], ?_, by rw [abs_sub_comm]; norm_num [abs_of_nonneg]⟩
  · norm_num [computeKellyPercentage, kellyPredictedProb, kellyMarketSideProb, kellyPred,
      kellyOutcomeA, kellyOutcomeB, clamp01, jsMin, jsMax, jsAbs, jsRound, confBelowFloor]
  · have h : resWasCorrect scenarioRecord "Yes" = true := by decide
    simp only [scenarioRecord] at h
    norm_num [resKellyReturn, h, resKellyPct, resSafeEntryPrice, resEntryPrice, resIsPredFirst,
      resPredictedOutcome, resOutcome0, resOutcomes, jsMax, jsMin, scenarioRecord]

/-- Claim C2 (amended): on the end-to-end scenario (market ["Yes","No"],
price of "Yes" 0.70, model probability 0.85, prediction "Yes", confidence 8)
all three guardrails pass and the stake calculator returns 50 (50% of
bankroll, Kelly fraction 0.5); after a settlement with winner "Yes" the
prediction is correct and the realized return is
`(50/100) · (1 − 0.7)/0.7 = 3/14 ≈ 0.214`. -/
theorem kelly_scenario_exact :
    computeKellyPercentage (.fin (17/20)) "Yes" ["Yes", "No"] (.fin (7/10)) (.fin 8) = 50 ∧
    resWasCorrect scenarioRecord "Yes" = true ∧
    resKellyReturn scenarioRecord "Yes" = 50/100 * ((1 - 7/10) / (7/10)) ∧
    (50 : ℚ)/100 * ((1 - 7/10) / (7/10)) = 3/14 := by
  refine ⟨?_, by decide, ?_, by norm_num⟩
  · norm_num [computeKellyPercentage, kellyPredictedProb, kellyMarketSideProb, kellyPred,
      kellyOutcomeA, kellyOutcomeB, clamp01, jsMin, jsMax, jsAbs, jsRound, confBelowFloor]
  · have h : resWasCorrect scenarioRecord "Yes" = true := by decide
    simp only [scenarioRecord] at h
    norm_num [resKellyReturn, h, resKellyPct, resSafeEntryPrice, resEntryPrice, resIsPredFirst,
      resPredictedOutcome, resOutcome0, resOutcomes, jsMax, jsMin, scenarioRecord]

/-- Claim C3: each guardrail of the stake calculator independently forces a
stake of exactly 0: a finite confidence below the floor 4, a market-side
probability at most 0.05 or at least 0.95, or an absolute edge below 0.02. -/
theorem kelly_guardrails_zero :
    (∀ (aiP : JsNum) (pred : String) (outs : List String) (mP : JsNum) (c : ℚ), c < 4 →
      computeKellyPercentage aiP pred outs mP (.fin c) = 0) ∧
    (∀ (aiP : JsNum) (pred : String) (outs : List String) (mP conf : JsNum),
      kellyMarketSideProb aiP pred outs mP ≤ 5/100 ∨
        95/100 ≤ kellyMarketSideProb aiP pred outs mP →
      computeKellyPercentage aiP pred outs mP conf = 0) ∧
    (∀ (aiP : JsNum) (pred : String) (outs : List String) (mP conf : JsNum),
      |kellyPredictedProb aiP pred outs - kellyMarketSideProb aiP pred outs mP| < 2/100 →
      computeKellyPercentage aiP pred outs mP conf = 0) := by
  refine ⟨?_, ?_, ?_⟩
  · intro aiP pred outs mP c hc
    have hconf : confBelowFloor (.fin c) = true := by simp [confBelowFloor, hc]
    simp [computeKellyPercentage, hconf]
  · intro aiP pred outs mP conf h
    simp only [computeKellyPercentage]
    split_ifs <;> rfl
  · intro aiP pred outs mP conf h
    rw [← jsAbs_eq_abs] at h
    simp only [computeKellyPercentage]
    split_ifs <;> rfl

/-- Claim C3 witness: concrete inputs on which exactly one guardrail fires
(low confidence with a huge edge; an extreme market price with a huge edge;
a sub-0.02 edge at a mid price), each returning 0. -/
theorem kelly_guardrails_zero_witness :
    computeKellyPercentage (.fin (17/20)) "Yes" ["Yes", "No"] (.fin (1/2)) (.fin 2) = 0 ∧
    computeKellyPercentage (.fin (9/10)) "Yes" ["Yes", "No"] (.fin (1/25)) (.fin 8) = 0 ∧
    computeKellyPercentage (.fin (51/100)) "Yes" ["Yes", "No"] (.fin (1/2)) (.fin 8) = 0 :=
  ⟨kelly_guardrails_zero.1 (.fin (17/20)) "Yes" ["Yes", "No"] (.fin (1/2)) 2 (by norm_num),
   kelly_guardrails_zero.2.1 (.fin (9/10)) "Yes" ["Yes", "No"] (.fin (1/25)) (.fin 8)
     (by norm_num [kellyMarketSideProb, kellyPred, kellyOutcomeA, kellyOutcomeB, clamp01,
       jsMin, jsMax]),
   kelly_guardrails_zero.2.2 (.fin (51/100)) "Yes" ["Yes", "No"] (.fin (1/2)) (.fin 8)
     (by norm_num [kellyPredictedProb, kellyMarketSideProb, kellyPred, kellyOutcomeA,
       kellyOutcomeB, clamp01, jsMin, jsMax, abs_lt])⟩

/-- Claim C4 counterexample: an out-of-range model probability (5 > 1) is
clamped to 1 rather than forcing the conservative default, and the calculator
returns the positive stake 100 instead of 0. -/
theorem kelly_outofrange_prob_positive_stake :
    computeKellyPercentage (.fin 5) "Yes" ["Yes", "No"] (.fin (1/2)) (.fin 8) = 100 ∧
    (100 : ℚ) ≠ 0 := by
  constructor
  · norm_num [computeKellyPercentage, kellyPredictedProb, kellyMarketSideProb, kellyPred,
      kellyOutcomeA, kellyOutcomeB, clamp01, jsMin, jsMax, jsAbs, jsRound, confBelowFloor]
  · norm_num

/-- Claim C4 (amended): the stake calculator never raises (it is a total
function); a malformed probability is not degraded to a stake of 0 but
sanitised by `clamp01` — non-finite values (NaN, ±Infinity) become 0.5 and
out-of-range finite values are clamped into [0,1] — after which the
computation proceeds and can return a positive stake, as the concrete
out-of-range input shows. -/
theorem kelly_malformed_prob_clamped :
    (∀ x : JsNum, 0 ≤ clamp01 x ∧ clamp01 x ≤ 1) ∧
    clamp01 .nan = 1/2 ∧ clamp01 .posInf = 1/2 ∧ clamp01 .negInf = 1/2 ∧
    (∀ q : ℚ, 1 < q → clamp01 (.fin q) = 1) ∧
    (∀ q : ℚ, q < 0 → clamp01 (.fin q) = 0) ∧
    computeKellyPercentage (.fin 5) "Yes" ["Yes", "No"] (.fin (1/2)) (.fin 8) = 100 := by
  refine ⟨clamp01_mem, rfl, rfl, rfl, ?_, ?_, ?_⟩
  · intro q hq
    simp only [clamp01, jsMin_eq_min, jsMax_eq_max]
    rw [max_eq_right (le_trans zero_le_one hq.le), min_eq_left hq.le]
  · intro q hq
    simp only [clamp01, jsMin_eq_min, jsMax_eq_max]
    rw [max_eq_left hq.le, min_eq_right zero_le_one]
  · norm_num [computeKellyPercentage, kellyPredictedProb, kellyMarketSideProb, kellyPred,
      kellyOutcomeA, kellyOutcomeB, clamp01, jsMin, jsMax, jsAbs, jsRound, confBelowFloor]

/-- Claim C4 witness: the clamping clauses instantiated at the out-of-range
probabilities 5 and -1. -/
theorem kelly_malformed_prob_clamped_witness :
    clamp01 (.fin 5) = 1 ∧ clamp01 (.fin (-1)) = 0 :=
  ⟨kelly_malformed_prob_clamped.2.2.2.2.1 5 (by norm_num),
   kelly_malformed_prob_clamped.2.2.2.2.2.1 (-1) (by norm_num)⟩

/-- Claim C5: the resolution matcher compares the trimmed, lowercased
settlement winner and predicted outcome; an "other" sentinel prediction is
correct iff the normalised winner differs from the normalised `outcomes[0]`,
and otherwise correctness is string equality of the normalised labels — so
labels differing only in case or surrounding whitespace still match, as the
concrete instance with winner " YES " for prediction "Yes" shows. -/
theorem resolution_match_normalized :
    (∀ (p : PredictionRecord) (w : String),
      resWasCorrect p w = true ↔
        (if jsNorm (resPredictedOutcome p) = "other" then jsNorm w ≠ jsNorm (resOutcome0 p)
         else jsNorm w = jsNorm (resPredictedOutcome p))) ∧
    resWasCorrect scenarioRecord " YES " = true := by
  constructor
  · intro p w
    unfold resWasCorrect resActualProb
    split_ifs with h1 h2 h3 <;> simp_all
  · decide

/-- Claim C6 counterexample: a full-bankroll stake (stake fraction 1) that
resolves incorrect yields a realized return of -0.99 (the floor), not exactly
`-stakeFraction = -1` as the claim requires. -/
theorem return_floor_breaks_neg_stake :
    resWasCorrect maxStakeRecord "No" = false ∧
    resKellyPct maxStakeRecord / 100 = 1 ∧
    resKellyReturn maxStakeRecord "No" = -99/100 ∧
    ((-99 : ℚ)/100) ≠ -1 := by
  refine ⟨by decide, ?_, ?_, by norm_num⟩
  · norm_num [resKellyPct, maxStakeRecord, jsMax, jsMin]
  · have h : resWasCorrect maxStakeRecord "No" = false := by decide
    simp only [maxStakeRecord] at h
    norm_num [resKellyReturn, h, resKellyPct, jsMax, jsMin, maxStakeRecord]

/-- Claim C6 (amended): the entry price is clamped into [0.01, 0.99] and the
stake fraction into [0,1]; when correct the realized return is exactly
`stakeFraction · (1 − entryPrice)/entryPrice` (never floored, since it is
non-negative), when incorrect it is `max(-0.99, -stakeFraction)` — i.e.
exactly `-stakeFraction` except that a full-bankroll loss is floored at
-0.99 — and the final value always lies in [-0.99, ∞).  (In the exact
rational model every value is finite, so the source's NaN/Infinity coercion
to 0 cannot fire.) -/
theorem return_model_semantics (p : PredictionRecord) (w : String) :
    (1/100 ≤ resSafeEntryPrice p ∧ resSafeEntryPrice p ≤ 99/100) ∧
    (0 ≤ resKellyPct p / 100 ∧ resKellyPct p / 100 ≤ 1) ∧
    -(99/100) ≤ resKellyReturn p w ∧
    (resWasCorrect p w = true →
      resKellyReturn p w =
        resKellyPct p / 100 * ((1 - resSafeEntryPrice p) / resSafeEntryPrice p)) ∧
    (resWasCorrect p w = false →
      resKellyReturn p w = max (-(99/100)) (-(resKellyPct p / 100))) := by
  have hsafe := resSafeEntryPrice_mem p
  have hpct := resKellyPct_mem p
  have hfrac0 : 0 ≤ resKellyPct p / 100 := div_nonneg hpct.1 (by norm_num)
  refine ⟨hsafe, ⟨hfrac0, (div_le_one (by norm_num)).mpr hpct.2⟩, ?_, ?_, ?_⟩
  · simp only [resKellyReturn, jsMax_eq_max]
    exact le_trans (by norm_num) (le_max_left _ _)
  · intro h
    have hmargin : 0 ≤ (1 - resSafeEntryPrice p) / resSafeEntryPrice p :=
      div_nonneg (by linarith [hsafe.2]) (by linarith [hsafe.1])
    have hret : 0 ≤ resKellyPct p / 100 * ((1 - resSafeEntryPrice p) / resSafeEntryPrice p) :=
      mul_nonneg hfrac0 hmargin
    simp only [resKellyReturn, h, if_true, jsMax_eq_max]
    exact max_eq_right (by linarith)
  · intro h
    simp [resKellyReturn, h, jsMax_eq_max]
    norm_num

/-- Claim C6 witness: the correct-branch formula instantiated on the
end-to-end scenario record and the incorrect-branch formula on the
full-stake record. -/
theorem return_model_semantics_witness :
    resKellyReturn scenarioRecord "Yes" =
      resKellyPct scenarioRecord / 100 *
        ((1 - resSafeEntryPrice scenarioRecord) / resSafeEntryPrice scenarioRecord) ∧
    resKellyReturn maxStakeRecord "No" =
      max (-(99/100)) (-(resKellyPct maxStakeRecord / 100)) :=
  ⟨(return_model_semantics scenarioRecord "Yes").2.2.2.1 (by decide),
   (return_model_semantics maxStakeRecord "No").2.2.2.2 (by decide)⟩

/-- Claim C7: the aggregator's compounded ROI is the product of
`1 + max(-0.99, kellyReturn)` over the predictions sorted ascending by date,
minus 1; on the three-item fixture (given out of order) the sort restores
ascending date order 2024-01-01, 2024-01-02, 2024-01-03 and the ROI is
`1.5 × 0.5 × 1.2 − 1 = -0.1`. -/
theorem backtest_roi_date_order :
    (∀ (today : String) (l : List ScoredPrediction),
      (calculateBacktestStats today l).kellyROI =
        (jsSort (fun a b => decide (dateGetTime a.date ≤ dateGetTime b.date)) l).foldl
          (fun m p => m * (1 + jsMax (-99/100) p.kellyReturn)) 1 - 1) ∧
    jsSort (fun a b => decide (dateGetTime a.date ≤ dateGetTime b.date)) roiFixture =
      [ { date := "2024-01-01", wasCorrect := true, brierError := 0, kellyReturn := 1/2 },
        { date := "2024-01-02", wasCorrect := false, brierError := 0, kellyReturn := -1/2 },
        { date := "2024-01-03", wasCorrect := true, brierError := 0, kellyReturn := 1/5 } ] ∧
    (calculateBacktestStats "" roiFixture).kellyROI = -1/10 := by
  refine ⟨?_, ?_, ?_⟩
  · intro today l
    cases l with
    | nil => norm_num [calculateBacktestStats, jsSort]
    | cons a as =>
      simp only [calculateBacktestStats, List.length_cons]
      rw [if_neg (by omega)]
  · rfl
  · have h12 : (decide (dateGetTime "2024-01-01" ≤ dateGetTime "2024-01-02")) = true := by decide
    have h13 : (decide (dateGetTime "2024-01-01" ≤ dateGetTime "2024-01-03")) = true := by decide
    have h23 : (decide (dateGetTime "2024-01-02" ≤ dateGetTime "2024-01-03")) = true := by decide
    have h21 : (decide (dateGetTime "2024-01-02" ≤ dateGetTime "2024-01-01")) = false := by decide
    have h31 : (decide (dateGetTime "2024-01-03" ≤ dateGetTime "2024-01-01")) = false := by decide
    have h32 : (decide (dateGetTime "2024-01-03" ≤ dateGetTime "2024-01-02")) = false := by decide
    norm_num [calculateBacktestStats, roiFixture, jsSort, jsInsert, jsMax,
      h12, h13, h23, h21, h31, h32]

/-- Claim C8: aggregating the empty list returns the all-zero summary with an
empty time series (no division by zero — the `total == 0` branch returns the
zero record directly). -/
theorem backtest_empty_all_zero (today : String) :
    calculateBacktestStats today [] =
      { total := 0, accuracy := 0, brierScore := 0, avgBrier := 0, kellyROI := 0,
        winRate := 0, overTime := [] } := rfl

/-- Claim C9 counterexample: in the resolution path a non-empty stored
prediction label that matches neither outcome ("Maybe" with outcomes
["Yes","No"]) is kept verbatim rather than replaced by the model-favoured
side: although the model probability 0.9 favours `outcomes[0]`, the record is
scored as a prediction of the non-first side, with `predictedProb = 1 - 0.9`. -/
theorem resolution_no_model_side_fallback :
    1/2 ≤ mismatchRecord.aiProb ∧
    resPredictedOutcome mismatchRecord = "Maybe" ∧
    resPredictedOutcome mismatchRecord ≠ resOutcome0 mismatchRecord ∧
    resIsPredFirst mismatchRecord = false ∧
    resPredictedProb mismatchRecord = 1/10 := by
  refine ⟨by norm_num [mismatchRecord], by decide, by decide, by decide, ?_⟩
  have h : resIsPredFirst mismatchRecord = false := by decide
  simp only [mismatchRecord] at h
  norm_num [resPredictedProb, h, mismatchRecord]

/-- Claim C9 (amended): the stake calculator does fall back to the
model-favoured side when the prediction label matches neither outcome
(`outcomes[0]` iff `probabilityOfOutcomeA ≥ 0.5`, else `outcomes[1]`), and it
never throws; the resolution path, however, falls back to `outcomes[0]` only
when the stored prediction label is empty (falsy) — a non-empty mismatching
label is kept verbatim and scored as a non-first-side prediction. -/
theorem prediction_fallback_semantics :
    (∀ (x : ℚ) (pred : String) (outs : List String),
      ¬(kellyOutcomeA outs = some pred ∨ pred = kellyOutcomeB outs) →
      kellyPred (.fin x) pred outs =
        if 1/2 ≤ x then kellyOutcomeA outs else some (kellyOutcomeB outs)) ∧
    (∀ p : PredictionRecord, p.aiPrediction ≠ "" → resPredictedOutcome p = p.aiPrediction) ∧
    (∀ p : PredictionRecord, p.aiPrediction = "" → resPredictedOutcome p = resOutcome0 p) := by
  refine ⟨?_, ?_, ?_⟩
  · intro x pred outs hmis
    unfold kellyPred
    rw [if_neg hmis]
    by_cases hx : 1/2 ≤ x
    · rw [if_pos ((clamp01_half_le x).mpr hx), if_pos hx]
    · rw [if_neg (fun hc => hx ((clamp01_half_le x).mp hc)), if_neg hx]
  · intro p hp
    unfold resPredictedOutcome
    rw [if_neg hp]
  · intro p hp
    unfold resPredictedOutcome
    rw [if_pos hp]

/-- Claim C9 witness: the calculator fallback instantiated on the mismatching
label "Maybe" with model probability 0.9 (picking `outcomes[0]`), and the two
resolution-path clauses instantiated on a non-empty and an empty stored
prediction label. -/
theorem prediction_fallback_semantics_witness :
    kellyPred (.fin (9/10)) "Maybe" ["Yes", "No"] = some "Yes" ∧
    resPredictedOutcome mismatchRecord = mismatchRecord.aiPrediction ∧
    resPredictedOutcome emptyPredRecord = resOutcome0 emptyPredRecord :=
  ⟨(prediction_fallback_semantics.1 (9/10) "Maybe" ["Yes", "No"] (by decide)).trans
     (by norm_num [kellyOutcomeA]),
   prediction_fallback_semantics.2.1 mismatchRecord (by decide),
   prediction_fallback_semantics.2.2 emptyPredRecord (by decide)⟩

/-- Claim C10: the rate limiter records the current call's timestamp before
checking, so `hitRateLimit` rejects exactly when strictly more than `limit`
timestamps — the current call included — lie within the trailing window, and
the stored bucket always ends with the current timestamp even for rejected
calls; consequently sustained over-limit calling keeps extending the
rejection, as the simulated call sequence shows: with limit 2, calls at
0, 10, 20, 30 ms and then at 60005 ms (after the first three timestamps
left the window) are rejected from the third call onwards, including the
last one. -/
theorem rate_limiter_sliding_window :
    (∀ (buckets : List (String × List ℤ)) (ip : String) (now : ℤ) (limit : ℕ),
      ((hitRateLimit buckets ip now limit).1 = true ↔
        limit <
          (((buckets.lookup ip).getD []).filter
            (fun t => decide (now - t < RATE_LIMIT_WINDOW_MS))).length + 1) ∧
      (hitRateLimit buckets ip now limit).2.lookup ip =
        some ((((buckets.lookup ip).getD []).filter
          (fun t => decide (now - t < RATE_LIMIT_WINDOW_MS))) ++ [now])) ∧
    rlSimulate "ip" 2 [] [0, 10, 20, 30, 60005] = [false, false, true, true, true] := by
  refine ⟨?_, by decide⟩
  intro buckets ip now limit
  constructor
  · simp [hitRateLimit]
  · simp only [hitRateLimit]
    exact mapSet_lookup buckets ip _
